import Mathlib

/-!
Shallow embedding of `src/osbuild/buildroot.py` (class `BuildRoot` and
`CompletedBuild`).  External effects (directory creation, tempdir creation,
mounting, device-node creation, API endpoint context entry, and the
filesystem queries made by `run`) are modelled by explicit oracles (`World`,
`FS`) whose answers determine which Python call raises.  The ExitStack is
modelled as an explicit LIFO list of release actions; Python's semantics are
mirrored: the attribute `_exitstack` stays a truthy (non-`none`) closed stack
after a failed `__enter__`, and `__exit__` on a `None` stack raises
`AttributeError`.
-/

namespace Osbuild

/-- A character-device node as created by `BuildRoot._mknod` via `os.mknod`:
the stored `mode` is `stat.S_IMODE(mode) | stat.S_IFCHR` and the device
number is `os.makedev(major, minor)` (kept here as the pair). -/
structure DevNode where
  name : String
  mode : Nat
  major : Nat
  minor : Nat
  deriving DecidableEq

/-- `stat.S_IFCHR`. -/
def S_IFCHR : Nat := 0o020000

/-- `stat.S_IFMT`: the file-type mask. -/
def S_IFMT : Nat := 0o170000

/-- `stat.S_IMODE(m) = m & 0o7777`. -/
def S_IMODE (m : Nat) : Nat := m &&& 0o7777

/-- An API endpoint as used by `BuildRoot`: it exposes `endpoint` (its name)
and `socket_address`, plus a context-manager acquire/release pair (modelled
through `World.apiEnterOk` and `Release.releaseApi`). -/
structure Api where
  endpoint : String
  socket_address : String
  deriving DecidableEq

/-- A release action held by the modelled ExitStack, in the order the
Python code registers them: removal of the `osbuild-dev-*` tempdir, removal
of the `osbuild-var-*` tempdir, the lazy unmount callback for the tmpfs on
the dev dir, and the `__exit__` of a registered API endpoint. -/
inductive Release where
  | rmDev (path : String)
  | rmVar (path : String)
  | umountDev (path : String)
  | releaseApi (endpoint : String)
  deriving DecidableEq

/-- The state of a `BuildRoot` object.  `_exitstack = none` models the
attribute being `None`; `_exitstack = some s` models it holding an ExitStack
whose registered callbacks are `s` (most recently registered first).
`devContents` models the on-disk contents of the device directory (reset by
the fresh tmpfs mount, extended by each `_mknod`). -/
structure BuildRoot where
  _rootdir : String
  _rundir : String
  _vardir : String
  _libdir : String
  _runner : String
  _apis : List Api
  _exitstack : Option (List Release)
  dev : Option String
  var : Option String
  mount_boot : Bool
  devContents : List DevNode
  deriving DecidableEq

/-- `BuildRoot.__init__(root, runner, libdir, var, rundir=...)`. -/
def BuildRoot.init (root runner libdir varD rundir : String) : BuildRoot :=
  { _rootdir := root, _rundir := rundir, _vardir := varD, _libdir := libdir,
    _runner := runner, _apis := [], _exitstack := none, dev := none,
    var := none, mount_boot := true, devContents := [] }

/-- Oracle deciding the outcome of every effectful call made by
`BuildRoot.__enter__`:  `os.makedirs`, `tempfile.TemporaryDirectory`
(given its prefix and parent dir, returning the created path or `none` on
failure), the `mount` subprocess, `os.mknod` (given the dev dir and node
name), and an API endpoint's `__enter__` (given the endpoint name). -/
structure World where
  makedirsOk : String → Bool
  mkdtemp : String → String → Option String
  mountOk : String → Bool
  mknodOk : String → String → Bool
  apiEnterOk : String → Bool

/-- The exception raised by a failing step of `__enter__`. -/
inductive Err where
  | makedirsFailed (path : String)
  | mkdtempFailed (dir : String)
  | mountFailed (path : String)
  | mknodFailed (name : String)
  | apiEnterFailed (endpoint : String)
  deriving DecidableEq

/-- Result of `__enter__`: either the new object state, or the raised
error together with the object state left behind and the release actions
that the closing ExitStack executed during the unwind (in execution order,
i.e. reverse acquisition order). -/
inductive EnterResult where
  | ok (st : BuildRoot)
  | failed (e : Err) (st : BuildRoot) (released : List Release)
  deriving DecidableEq

/-- The object state carried by an `EnterResult` (the state after the call,
whether it succeeded or raised). -/
def EnterResult.stateOf : EnterResult → BuildRoot
  | .ok st => st
  | .failed _ st _ => st

/-- Whether an `EnterResult` is a success. -/
def EnterResult.isOk : EnterResult → Bool
  | .ok _ => true
  | .failed _ _ _ => false

/-- `BuildRoot._mknod(path, name, mode, major, minor)`: creates a character
device node; modelled as appending the node to the device directory's
contents.  The only call sites pass `self.dev` as `path`. -/
def _mknod (contents : List DevNode) (name : String) (mode major minor : Nat) :
    List DevNode :=
  contents ++ [⟨name, S_IMODE mode ||| S_IFCHR, major, minor⟩]

/-- The six `_mknod` calls of `__enter__`, in source order:
name, mode, major, minor. -/
def devNodes : List (String × Nat × Nat × Nat) :=
  [("full", 0o666, 1, 7), ("null", 0o666, 1, 3), ("random", 0o666, 1, 8),
   ("urandom", 0o666, 1, 9), ("tty", 0o666, 5, 0), ("zero", 0o666, 1, 5)]

/-- The `DevNode` produced by one entry of `devNodes`. -/
def nodeOf (n : String × Nat × Nat × Nat) : DevNode :=
  ⟨n.1, S_IMODE n.2.1 ||| S_IFCHR, n.2.2.1, n.2.2.2⟩

/-- The sequence of six `_mknod` calls: stops at the first failing
`os.mknod`, returning the failing node name. -/
def runMknods (w : World) (devPath : String) (contents : List DevNode) :
    List (String × Nat × Nat × Nat) → Except String (List DevNode)
  | [] => .ok contents
  | (name, mode, major, minor) :: rest =>
    if w.mknodOk devPath name then
      runMknods w devPath (_mknod contents name mode major minor) rest
    else .error name

/-- The `for api in self._apis: self._exitstack.enter_context(api)` loop:
pushes each endpoint's release onto the stack in registration order; on a
failing `__enter__` it returns the failing endpoint name together with the
stack accumulated so far (which the unwind will then execute). -/
def enterApis (w : World) (stack : List Release) :
    List Api → Except (String × List Release) (List Release)
  | [] => .ok stack
  | a :: rest =>
    if w.apiEnterOk a.endpoint then
      enterApis w (Release.releaseApi a.endpoint :: stack) rest
    else .error (a.endpoint, stack)

/-- `BuildRoot.__enter__`.  Mirrors the Python source line by line:
`self._exitstack = ExitStack()` (unconditionally — there is no
already-open check), then inside `with self._exitstack:` the makedirs /
tempdir / mount / mknod / API steps, and on full success
`self._exitstack = self._exitstack.pop_all()`.  On a failing step the
`with` statement closes the scratch stack (running the accumulated
releases LIFO) and the exception propagates; the attribute keeps the now
closed, empty — but truthy — stack (`some []`), and `self.dev`/`self.var`
keep whatever was assigned. -/
def enter (w : World) (b : BuildRoot) : EnterResult :=
  let b0 := { b with _exitstack := some ([] : List Release) }
  if w.makedirsOk b._rundir then
    match w.mkdtemp "osbuild-dev-" b._rundir with
    | none => .failed (.mkdtempFailed b._rundir) b0 []
    | some devPath =>
      let b1 := { b0 with dev := some devPath }
      let s1 : List Release := [.rmDev devPath]
      if w.makedirsOk b._vardir then
        match w.mkdtemp "osbuild-var-" b._vardir with
        | none => .failed (.mkdtempFailed b._vardir) b1 s1
        | some varPath =>
          let b2 := { b1 with var := some varPath }
          let s2 : List Release := .rmVar varPath :: s1
          if w.mountOk devPath then
            let b3 := { b2 with devContents := [] }
            let s3 : List Release := .umountDev devPath :: s2
            match runMknods w devPath b3.devContents devNodes with
            | .error name => .failed (.mknodFailed name) b3 s3
            | .ok contents =>
              let b4 := { b3 with devContents := contents }
              match enterApis w s3 b._apis with
              | .error p => .failed (.apiEnterFailed p.1) b4 p.2
              | .ok stack => .ok { b4 with _exitstack := some stack }
          else .failed (.mountFailed devPath) b2 s2
      else .failed (.makedirsFailed b._vardir) b1 s1
  else .failed (.makedirsFailed b._rundir) b0 []

/-- Result of `__exit__`: either the new state with the releases the
ExitStack executed (in LIFO order), or the `AttributeError` raised by
`None.close()` when `_exitstack` is `None`. -/
inductive ExitResult where
  | ok (st : BuildRoot) (released : List Release)
  | attrError
  deriving DecidableEq

/-- The state carried by an `ExitResult`, with a fallback for the raising
case (where the object is unchanged). -/
def ExitResult.stateD (r : ExitResult) (d : BuildRoot) : BuildRoot :=
  match r with
  | .ok st _ => st
  | .attrError => d

/-- `BuildRoot.__exit__`: `self._exitstack.close(); self._exitstack = None`.
If the attribute is `None` (never entered, or already exited), the
attribute access `.close` raises `AttributeError`.  Note `self.dev` and
`self.var` are not touched. -/
def close (b : BuildRoot) : ExitResult :=
  match b._exitstack with
  | none => .attrError
  | some s => .ok { b with _exitstack := none } s

/-- `BuildRoot.register_api(api)`: unconditionally appends the endpoint to
`self._apis` (no name-uniqueness check exists); if `self._exitstack` is
truthy — which every ExitStack object is, open or closed — the endpoint is
entered immediately and its release pushed onto the stack. -/
def register_api (b : BuildRoot) (api : Api) : BuildRoot :=
  let b1 := { b with _apis := b._apis ++ [api] }
  match b1._exitstack with
  | none => b1
  | some s => { b1 with _exitstack := some (Release.releaseApi api.endpoint :: s) }

/-- `os.path.join` for two components, as used by the source: the second
component wins if absolute; otherwise a separator is inserted unless the
first component is empty or already ends in one.  (The checks whether `b`
starts with, and `a` ends with, a slash are written on the character
lists so that they evaluate by kernel reduction.) -/
def pathJoin (a b : String) : String :=
  if b.data.head? = some '/' then b
  else if a = "" then b
  else if a.data.getLast? = some '/' then a ++ b
  else a ++ "/" ++ b

/-- Filesystem oracle for the queries `run` makes: `os.path.isdir`
(follows symlinks), `os.path.islink`, `os.listdir` (`none` models the
raised `FileNotFoundError`), and the directory of the host-installed
`osbuild` module (`os.path.dirname(importlib.util.find_spec("osbuild").origin)`). -/
structure FS where
  isdir : String → Bool
  islink : String → Bool
  listdir : String → Option (List String)
  osbuildModPath : String

/-- The import section of `run` (lines 157–165): `imports = ["usr"]`, with
`"boot"` inserted in front when `self.mount_boot`; each entry is read-only
bound iff it is a directory and not a symlink. -/
def importsMounts (fs : FS) (b : BuildRoot) : List String :=
  let imports := if b.mount_boot then ["boot", "usr"] else ["usr"]
  (imports.map (fun p =>
    let source := pathJoin b._rootdir p
    if fs.isdir source && !(fs.islink source) then
      ["--ro-bind", source, pathJoin "/" p]
    else [])).flatten

/-- Errors `run` can raise before spawning the child process. -/
inductive RunErr where
  | noActiveContext
  | listdirFailed (path : String)
  deriving DecidableEq

/-- Result of the mount-list composition inside `run`. -/
inductive MountsResult where
  | ok (mounts : List String)
  | listdirError (path : String)
  deriving DecidableEq

/-- The `mounts` list built by `run` (lines 155–219), as the same sequence
of `mounts += ...` appends, with the caller-bind loops as left folds and
the `os.listdir` call placed where the source makes it. -/
def composeMounts (fs : FS) (b : BuildRoot) (devPath varPath : String)
    (binds roBinds : List String) : MountsResult :=
  let mounts : List String := []
  let mounts := mounts ++ importsMounts fs b
  let mounts := mounts ++ ["--symlink", "usr/lib", "/lib"]
  let mounts := mounts ++ ["--symlink", "usr/lib64", "/lib64"]
  let mounts := mounts ++ ["--symlink", "usr/bin", "/bin"]
  let mounts := mounts ++ ["--symlink", "usr/sbin", "/sbin"]
  let mounts := mounts ++ ["--dev-bind", devPath, "/dev"]
  let mounts := mounts ++ ["--tmpfs", "/dev/shm"]
  let mounts := mounts ++ ["--dir", "/etc"]
  let mounts := mounts ++ ["--tmpfs", "/run"]
  let mounts := mounts ++ ["--tmpfs", "/tmp"]
  let mounts := mounts ++ ["--bind", varPath, "/var"]
  let mounts := mounts ++ ["--proc", "/proc"]
  let mounts := mounts ++ ["--ro-bind", "/sys", "/sys"]
  let mounts := mounts ++ ["--ro-bind-try", "/sys/fs/selinux", "/sys/fs/selinux"]
  let mounts := mounts ++ ["--ro-bind-try", pathJoin b._rootdir "etc/mke2fs.conf",
                           "/etc/mke2fs.conf"]
  let mounts := mounts ++ ["--ro-bind", b._libdir, "/run/osbuild/lib"]
  match fs.listdir (pathJoin b._libdir "osbuild") with
  | none => .listdirError (pathJoin b._libdir "osbuild")
  | some entries =>
    let mounts := mounts ++
      (if entries.isEmpty then
        ["--ro-bind", fs.osbuildModPath, "/run/osbuild/lib/osbuild"]
      else [])
    let mounts := binds.foldl (fun acc s => acc ++ ("--bind" :: s.splitOn ":")) mounts
    let mounts := roBinds.foldl
      (fun acc s => acc ++ ("--ro-bind" :: s.splitOn ":")) mounts
    let mounts := mounts ++ ["--dir", "/run/osbuild/api"]
    let mounts := b._apis.foldl
      (fun acc a => acc ++
        ["--bind", a.socket_address, "/run/osbuild/api/" ++ a.endpoint]) mounts
    .ok mounts

/-- The `cmd` list of `run` (lines 221–237). -/
def composeCmd (b : BuildRoot) (mounts argv : List String) : List String :=
  ["bwrap",
   "--cap-add", "CAP_MAC_ADMIN",
   "--chdir", "/",
   "--die-with-parent",
   "--new-session",
   "--setenv", "PATH", "/usr/sbin:/usr/bin",
   "--setenv", "PYTHONPATH", "/run/osbuild/lib",
   "--setenv", "PYTHONUNBUFFERED", "1",
   "--unshare-ipc",
   "--unshare-pid",
   "--unshare-net"]
  ++ mounts
  ++ ["--", "/run/osbuild/lib/runners/" ++ b._runner]
  ++ argv

/-- `subprocess.CompletedProcess`, reduced to what `CompletedBuild` uses. -/
structure CompletedProcess where
  returncode : Int
  deriving DecidableEq, Inhabited

/-- `CompletedBuild`: holds the process and the accumulated output. -/
structure CompletedBuild where
  process : CompletedProcess
  output : String
  deriving DecidableEq, Inhabited

/-- `CompletedBuild.returncode` property. -/
def CompletedBuild.returncode (c : CompletedBuild) : Int := c.process.returncode

/-- `CompletedBuild.stdout` property: the accumulated output. -/
def CompletedBuild.stdout (c : CompletedBuild) : String := c.output

/-- `CompletedBuild.stderr` property: the same accumulated output. -/
def CompletedBuild.stderr (c : CompletedBuild) : String := c.output

/-- The child process's observable behaviour: the successive non-empty
texts returned by `os.read` on the merged stdout/stderr pipe (an empty
read means end-of-stream), the final buffer returned by
`proc.communicate()`, and the exit status. -/
structure Child where
  chunks : List String
  commBuf : String
  returncode : Int
  deriving DecidableEq

/-- The `while True: buf = os.read(fd, 32768) ...` loop: accumulates each
chunk into the `StringIO` and forwards it verbatim to `monitor.log`,
stopping at the first empty read.  Returns the accumulated text and the
list of `monitor.log` arguments so far. -/
def streamLoop : List String → String × List String
  | [] => ("", [])
  | c :: rest =>
    if c = "" then ("", [])
    else
      let r := streamLoop rest
      (c ++ r.1, c :: r.2)

/-- Everything `run` produces on success: the composed mount list and
command line, the returned `CompletedBuild`, and the full sequence of
`monitor.log` calls in order. -/
structure RunOutcome where
  mounts : List String
  cmd : List String
  build : CompletedBuild
  logs : List String
  deriving DecidableEq, Inhabited

/-- Result of `BuildRoot.run`. -/
inductive RunResult where
  | ok (o : RunOutcome)
  | failed (e : RunErr)
  deriving DecidableEq

/-- Whether a `RunResult` is a success (i.e. a child process was spawned
and a `CompletedBuild` returned). -/
def RunResult.isOk : RunResult → Bool
  | .ok _ => true
  | .failed _ => false

/-- The outcome carried by a successful `RunResult`, with fallback. -/
def RunResult.outcomeD (r : RunResult) (d : RunOutcome) : RunOutcome :=
  match r with
  | .ok o => o
  | .failed _ => d

/-- `BuildRoot.run(argv, monitor, binds, readonly_binds)`.  Raises
`RuntimeError("No active context")` iff `self._exitstack` is `None`
(a closed ExitStack object is still truthy); then composes the mount list
(raising if `os.listdir` on `libdir/osbuild` raises), composes the command
line, spawns the child, streams its output (each chunk appended to the
accumulator and logged to the monitor), then appends the
`proc.communicate()` remainder through both paths, and returns a
`CompletedBuild` with the process and the accumulated output. -/
def run (fs : FS) (b : BuildRoot) (argv : List String) (child : Child)
    (binds roBinds : List String) : RunResult :=
  match b._exitstack with
  | none => .failed .noActiveContext
  | some _ =>
    match composeMounts fs b (b.dev.getD "None") (b.var.getD "None") binds roBinds with
    | .listdirError p => .failed (.listdirFailed p)
    | .ok mounts =>
      let cmd := composeCmd b mounts argv
      let r := streamLoop child.chunks
      let output := r.1 ++ child.commBuf
      let logs := r.2 ++ [child.commBuf]
      .ok { mounts := mounts, cmd := cmd,
            build := { process := { returncode := child.returncode },
                       output := output },
            logs := logs }

/-- Concrete fixture: a freshly constructed `BuildRoot`. -/
def b0 : BuildRoot :=
  BuildRoot.init "/buildroot" "org.osbuild.test" "/usr/lib/osbuild-lib"
    "/var/lib/osbuild" "/run/osbuild"

/-- Concrete oracle in which every effectful call succeeds; tempdir
creation is deterministic on prefix and parent. -/
def allOkWorld : World :=
  { makedirsOk := fun _ => true,
    mkdtemp := fun pfx dir => some (pathJoin dir (pfx ++ "x7f3k1")),
    mountOk := fun _ => true,
    mknodOk := fun _ _ => true,
    apiEnterOk := fun _ => true }

/-- Concrete oracle in which every `os.mknod` call fails (modelling an
induced failure during device-node creation). -/
def mknodFailWorld : World :=
  { allOkWorld with mknodOk := fun _ _ => false }

/-- Concrete filesystem oracle: every path is a real directory, nothing is
a symlink, every directory listing succeeds non-empty. -/
def fsOk : FS :=
  { isdir := fun _ => true,
    islink := fun _ => false,
    listdir := fun _ => some ["loop.py"],
    osbuildModPath := "/usr/lib/python3.9/site-packages/osbuild" }

/-- The state of `b0` after a successful `__enter__` under `allOkWorld`. -/
def b0open : BuildRoot := (enter allOkWorld b0).stateOf

/-- Concrete child behaviour used by witnesses. -/
def childW : Child := { chunks := ["hel", "lo "], commBuf := "world", returncode := 0 }

/-- The teardown stack held by `b0open`. -/
def stack0 : List Release :=
  [.umountDev "/run/osbuild/osbuild-dev-x7f3k1",
   .rmVar "/var/lib/osbuild/osbuild-var-x7f3k1",
   .rmDev "/run/osbuild/osbuild-dev-x7f3k1"]

/-- Concrete endpoint fixture. -/
def apiA : Api := { endpoint := "osbuild.api", socket_address := "/run/osbuild/api-sock" }

/-- Concrete endpoint fixture sharing `apiA`'s name with another socket. -/
def apiB : Api := { endpoint := "osbuild.api", socket_address := "/tmp/other-sock" }

/-- Filesystem oracle in which every path is a symlink. -/
def fsLinked : FS := { fsOk with islink := fun _ => true }

/-- A fresh `BuildRoot` with `mount_boot` disabled. -/
def bNoBoot : BuildRoot := { b0 with mount_boot := false }

/-- The open environment with one registered endpoint. -/
def bW : BuildRoot := register_api b0open apiA

/-- Filesystem oracle whose directory listings raise (`FileNotFoundError`). -/
def fsNoModDir : FS := { fsOk with listdir := fun _ => none }

/-- The outcome of the concrete streaming run used by the C9 witness. -/
def oW : RunOutcome := (run fsOk b0open [] childW [] []).outcomeD default

/-!  Helper lemmas about the loop helpers of `enter` and `run`. -/

theorem runMknods_ok (w : World) (d : String) :
    ∀ (l : List (String × Nat × Nat × Nat)) (c0 c : List DevNode),
      runMknods w d c0 l = .ok c → c = c0 ++ l.map nodeOf := by
  intro l
  induction l with
  | nil =>
    intro c0 c h
    simp only [runMknods] at h
    cases h
    simp
  | cons n rest ih =>
    intro c0 c h
    obtain ⟨name, mode, major, minor⟩ := n
    by_cases hk : w.mknodOk d name
    · simp only [runMknods, hk, if_true] at h
      have h2 := ih _ _ h
      simp [h2, _mknod, nodeOf]
    · simp [runMknods, hk] at h

theorem runMknods_all_ok (w : World) (d : String) :
    ∀ (l : List (String × Nat × Nat × Nat)) (c0 : List DevNode),
      (∀ n ∈ l, w.mknodOk d n.1 = true) →
      runMknods w d c0 l = .ok (c0 ++ l.map nodeOf) := by
  intro l
  induction l with
  | nil => intro c0 _; simp [runMknods]
  | cons n rest ih =>
    intro c0 hall
    obtain ⟨name, mode, major, minor⟩ := n
    have hk : w.mknodOk d name = true := hall _ (List.mem_cons_self _ _)
    have hrest : ∀ n ∈ rest, w.mknodOk d n.1 = true :=
      fun n hn => hall n (List.mem_cons_of_mem _ hn)
    simp [runMknods, hk, ih _ hrest, _mknod, nodeOf]

theorem enterApis_ok (w : World) :
    ∀ (l : List Api) (s s' : List Release),
      enterApis w s l = .ok s' →
      s' = (l.map (fun a => Release.releaseApi a.endpoint)).reverse ++ s := by
  intro l
  induction l with
  | nil =>
    intro s s' h
    simp only [enterApis] at h
    cases h
    simp
  | cons a rest ih =>
    intro s s' h
    by_cases hk : w.apiEnterOk a.endpoint
    · simp only [enterApis, hk, if_true] at h
      have h2 := ih _ _ h
      simp [h2]
    · simp [enterApis, hk] at h

theorem enterApis_all_ok (w : World) :
    ∀ (l : List Api) (s : List Release),
      (∀ a ∈ l, w.apiEnterOk a.endpoint = true) →
      enterApis w s l =
        .ok ((l.map (fun a => Release.releaseApi a.endpoint)).reverse ++ s) := by
  intro l
  induction l with
  | nil => intro s _; simp [enterApis]
  | cons a rest ih =>
    intro s hall
    have hk : w.apiEnterOk a.endpoint = true := hall _ (List.mem_cons_self _ _)
    have hrest : ∀ x ∈ rest, w.apiEnterOk x.endpoint = true :=
      fun x hx => hall x (List.mem_cons_of_mem _ hx)
    simp [enterApis, hk, ih _ hrest]

/-- Characterisation of a successful `__enter__`: the tempdir paths exist,
and the final state is the input object with the dev/var paths assigned,
the six device nodes created, and the persistent stack holding — most
recent first — the API releases (reverse registration order), the lazy
unmount, the var tempdir removal and the dev tempdir removal. -/
theorem enter_ok_inv (w : World) (b st : BuildRoot) (h : enter w b = .ok st) :
    ∃ d v, w.mkdtemp "osbuild-dev-" b._rundir = some d ∧
      w.mkdtemp "osbuild-var-" b._vardir = some v ∧
      st = { b with
        _exitstack := some
          ((b._apis.map (fun a => Release.releaseApi a.endpoint)).reverse
            ++ [.umountDev d, .rmVar v, .rmDev d]),
        dev := some d, var := some v,
        devContents := devNodes.map nodeOf } := by
  by_cases h1 : w.makedirsOk b._rundir
  · rcases h2 : w.mkdtemp "osbuild-dev-" b._rundir with _ | d
    · simp [enter, h1, h2] at h
    · by_cases h3 : w.makedirsOk b._vardir
      · rcases h4 : w.mkdtemp "osbuild-var-" b._vardir with _ | v
        · simp [enter, h1, h2, h3, h4] at h
        · by_cases h5 : w.mountOk d
          · rcases hm : runMknods w d [] devNodes with name | contents
            · simp [enter, h1, h2, h3, h4, h5, hm] at h
            · rcases ha : enterApis w
                  [Release.umountDev d, Release.rmVar v, Release.rmDev d] b._apis
                with p | stack
              · simp [enter, h1, h2, h3, h4, h5, hm, ha] at h
              · have hc := runMknods_ok w d devNodes [] contents hm
                have hs := enterApis_ok w b._apis _ _ ha
                refine ⟨d, v, by simp [h2], by simp [h4], ?_⟩
                simp [enter, h1, h2, h3, h4, h5, hm, ha] at h
                rw [← h]
                simp [hc, hs]
          · simp [enter, h1, h2, h3, h4, h5] at h
      · simp [enter, h1, h2, h3] at h
  · simp [enter, h1] at h

/-- `String.join` distributes over `::`. -/
theorem join_cons_str (c : String) (l : List String) :
    String.join (c :: l) = c ++ String.join l := by
  apply String.ext
  simp [String.join_eq, String.data_append]

/-- `String.join` distributes over `++`. -/
theorem join_append_str (l1 l2 : List String) :
    String.join (l1 ++ l2) = String.join l1 ++ String.join l2 := by
  apply String.ext
  simp [String.join_eq, String.data_append]

/-- The read loop on chunks that are all non-empty: it accumulates their
concatenation and logs exactly the chunks, in order. -/
theorem streamLoop_eq (chunks : List String) (h : ∀ c ∈ chunks, c ≠ "") :
    streamLoop chunks = (String.join chunks, chunks) := by
  induction chunks with
  | nil => simp [streamLoop, String.join]
  | cons c rest ih =>
    have hc : c ≠ "" := h c (List.mem_cons_self _ _)
    have hr := ih (fun x hx => h x (List.mem_cons_of_mem _ hx))
    simp [streamLoop, hc, hr, join_cons_str]

/-- A left fold of appends equals the seed followed by the flattened map. -/
theorem foldl_append_eq {α β : Type} (f : α → List β) :
    ∀ (l : List α) (acc : List β),
      l.foldl (fun a x => a ++ f x) acc = acc ++ (l.map f).flatten := by
  intro l
  induction l with
  | nil => intro acc; simp
  | cons x rest ih => intro acc; simp [List.foldl, ih]

/-- C1 counterexample.  The claim says that after a failed `open()` "the
environment remains closed ... no partially open state is observable".
Inducing a device-node creation failure on a fresh `BuildRoot`:  `open()`
does fail, but afterwards `_exitstack` is a truthy (closed, empty)
ExitStack, not `None`, and `self.dev` still points at the removed tempdir;
consequently a subsequent `run()` passes its only is-open check and goes
on to spawn — a partially open state is observable. -/
theorem C1_counterexample :
    (enter mknodFailWorld b0).isOk = false ∧
    (enter mknodFailWorld b0).stateOf._exitstack = some [] ∧
    (enter mknodFailWorld b0).stateOf.dev ≠ none ∧
    (run fsOk (enter mknodFailWorld b0).stateOf [] childW [] []).isOk = true := by
  decide

/-- C1 (amended): if a step of `open()` fails (here: device-node creation,
after the run/var directories and the tmpfs mount succeeded), every
resource already acquired in this call is released immediately in reverse
acquisition order — lazy unmount of the tmpfs, removal of the var tempdir,
removal of the dev tempdir — and the originating error propagates; however
the environment does not observably remain closed: the `_exitstack`
attribute keeps a truthy closed stack (`some []`) rather than `None`, and
`dev`/`var` keep pointing at the removed directories. -/
theorem C1_open_failure_unwind (w : World) (b : BuildRoot) (d v : String)
    (h1 : w.makedirsOk b._rundir = true)
    (h2 : w.mkdtemp "osbuild-dev-" b._rundir = some d)
    (h3 : w.makedirsOk b._vardir = true)
    (h4 : w.mkdtemp "osbuild-var-" b._vardir = some v)
    (h5 : w.mountOk d = true)
    (h6 : w.mknodOk d "full" = false) :
    enter w b = .failed (.mknodFailed "full")
      { b with _exitstack := some [], dev := some d, var := some v,
               devContents := [] }
      [.umountDev d, .rmVar v, .rmDev d] := by
  simp [enter, h1, h2, h3, h4, h5, runMknods, devNodes, h6]

/-- C1 witness: the amended theorem applied at a concrete world that fails
device-node creation. -/
theorem C1_open_failure_unwind_witness :
    enter mknodFailWorld b0 = .failed (.mknodFailed "full")
      { b0 with _exitstack := some [],
                dev := some "/run/osbuild/osbuild-dev-x7f3k1",
                var := some "/var/lib/osbuild/osbuild-var-x7f3k1",
                devContents := [] }
      [.umountDev "/run/osbuild/osbuild-dev-x7f3k1",
       .rmVar "/var/lib/osbuild/osbuild-var-x7f3k1",
       .rmDev "/run/osbuild/osbuild-dev-x7f3k1"] :=
  C1_open_failure_unwind mknodFailWorld b0
    "/run/osbuild/osbuild-dev-x7f3k1" "/var/lib/osbuild/osbuild-var-x7f3k1"
    (by decide) (by decide) (by decide) (by decide) (by decide) (by decide)

/-- C2 counterexample.  The claim says `open()` on an already-open
environment fails with `AlreadyOpen` and acquires nothing.  `b0open` is
open (its `_exitstack` is set and non-trivial), yet `open()` succeeds
again and the resulting stack holds three freshly acquired release
actions. -/
theorem C2_counterexample :
    b0open._exitstack = some stack0 ∧
    (enter allOkWorld b0open).isOk = true ∧
    (enter allOkWorld b0open).stateOf._exitstack = some stack0 := by
  decide

/-- C2 (amended): `__enter__` performs no already-open check.  Called on
an environment whose `_exitstack` already holds releases `s`, it proceeds
exactly as a first open: it overwrites `_exitstack` with the freshly
acquired releases, abandoning `s` without running it (the previously held
resources leak). -/
theorem C2_reopen_overwrites (w : World) (b : BuildRoot) (s : List Release)
    (d v : String)
    (hopen : b._exitstack = some s)
    (h1 : w.makedirsOk b._rundir = true)
    (h2 : w.mkdtemp "osbuild-dev-" b._rundir = some d)
    (h3 : w.makedirsOk b._vardir = true)
    (h4 : w.mkdtemp "osbuild-var-" b._vardir = some v)
    (h5 : w.mountOk d = true)
    (h6 : ∀ n ∈ devNodes, w.mknodOk d n.1 = true)
    (h7 : ∀ a ∈ b._apis, w.apiEnterOk a.endpoint = true) :
    enter w b = .ok { b with
      _exitstack := some
        ((b._apis.map (fun a => Release.releaseApi a.endpoint)).reverse
          ++ [.umountDev d, .rmVar v, .rmDev d]),
      dev := some d, var := some v, devContents := devNodes.map nodeOf } := by
  have hm := runMknods_all_ok w d devNodes [] h6
  have ha := enterApis_all_ok w b._apis
    [Release.umountDev d, Release.rmVar v, Release.rmDev d] h7
  simp [enter, h1, h2, h3, h4, h5, hm, ha]

/-- C2 witness: reopening the already-open `b0open` under the all-success
world succeeds with a fresh three-element stack. -/
theorem C2_reopen_overwrites_witness :
    enter allOkWorld b0open = .ok { b0open with
      _exitstack := some
        ((b0open._apis.map (fun a => Release.releaseApi a.endpoint)).reverse
          ++ [.umountDev "/run/osbuild/osbuild-dev-x7f3k1",
              .rmVar "/var/lib/osbuild/osbuild-var-x7f3k1",
              .rmDev "/run/osbuild/osbuild-dev-x7f3k1"]),
      dev := some "/run/osbuild/osbuild-dev-x7f3k1",
      var := some "/var/lib/osbuild/osbuild-var-x7f3k1",
      devContents := devNodes.map nodeOf } :=
  C2_reopen_overwrites allOkWorld b0open stack0
    "/run/osbuild/osbuild-dev-x7f3k1" "/var/lib/osbuild/osbuild-var-x7f3k1"
    (by decide) (by decide) (by decide) (by decide) (by decide) (by decide)
    (by decide) (by decide)

/-- C3 counterexample.  The claim says `close()` on a not-open environment
is a silent idempotent no-op.  On the freshly constructed `b0` (not open:
`_exitstack` is `None`), `__exit__` instead raises `AttributeError` from
`None.close()`. -/
theorem C3_counterexample :
    b0._exitstack = none ∧ close b0 = .attrError := by
  decide

/-- C3 (amended): `close()` on an environment whose `_exitstack` is `None`
(never opened, or already closed) raises `AttributeError` rather than
silently no-oping; on an environment holding a stack it releases the whole
stack in LIFO order and sets `_exitstack` to `None` (leaving every other
attribute, including `dev`/`var`, unchanged). -/
theorem C3_close_behaviour (b : BuildRoot) :
    (b._exitstack = none → close b = .attrError) ∧
    (∀ s, b._exitstack = some s →
      close b = .ok { b with _exitstack := none } s) := by
  constructor
  · intro h; simp [close, h]
  · intro s h; simp [close, h]

/-- C3 witness: both branches at concrete states. -/
theorem C3_close_behaviour_witness :
    close b0 = .attrError ∧
    close b0open = .ok { b0open with _exitstack := none } stack0 :=
  ⟨(C3_close_behaviour b0).1 (by decide),
   (C3_close_behaviour b0open).2 stack0 (by decide)⟩

/-- C4 counterexample.  The claim says the invariant "dev/var non-null iff
open" is preserved by every operation, and that `close()` clears the
ephemeral directory references.  After `open()` then `close()` on a fresh
environment, `_exitstack` is `None` (closed) but `dev` and `var` still
hold the removed tempdir paths — the invariant is broken and the
references were not cleared. -/
theorem C4_counterexample :
    ((close b0open).stateD b0)._exitstack = none ∧
    ((close b0open).stateD b0).dev = some "/run/osbuild/osbuild-dev-x7f3k1" ∧
    ((close b0open).stateD b0).var = some "/var/lib/osbuild/osbuild-var-x7f3k1" := by
  decide

/-- C4 (amended): the invariant is established by construction
(`__init__` sets `dev`, `var` and `_exitstack` all to `None`) and a
successful `open()` makes all three non-`None`; but `__exit__` only
resets `_exitstack`, leaving `dev`/`var` untouched, so after `close()`
the references remain non-null while the environment is closed — the
"iff" direction is not preserved by `close()`. -/
theorem C4_invariant_close_gap :
    (∀ root runner libdir varD rundir,
      (BuildRoot.init root runner libdir varD rundir).dev = none ∧
      (BuildRoot.init root runner libdir varD rundir).var = none ∧
      (BuildRoot.init root runner libdir varD rundir)._exitstack = none) ∧
    (∀ w b st, enter w b = .ok st →
      st.dev.isSome = true ∧ st.var.isSome = true ∧ st._exitstack.isSome = true) ∧
    (∀ (b : BuildRoot) (s : List Release), b._exitstack = some s →
      close b = .ok { b with _exitstack := none } s) := by
  refine ⟨fun _ _ _ _ _ => ⟨rfl, rfl, rfl⟩, ?_, ?_⟩
  · intro w b st h
    obtain ⟨d, v, _, _, hst⟩ := enter_ok_inv w b st h
    subst hst
    exact ⟨rfl, rfl, rfl⟩
  · intro b s h
    simp [close, h]

/-- C4 witness: construction, successful open and close at concrete
inputs. -/
theorem C4_invariant_close_gap_witness :
    b0.dev = none ∧
    (b0open.dev.isSome = true ∧ b0open.var.isSome = true ∧
      b0open._exitstack.isSome = true) ∧
    close b0open = .ok { b0open with _exitstack := none } stack0 :=
  ⟨(C4_invariant_close_gap.1 "/buildroot" "org.osbuild.test" "/usr/lib/osbuild-lib"
      "/var/lib/osbuild" "/run/osbuild").1,
   C4_invariant_close_gap.2.1 allOkWorld b0 b0open (by decide),
   C4_invariant_close_gap.2.2 b0open stack0 (by decide)⟩

/-- C5 counterexample.  The claim says registering an endpoint whose name
equals an already-registered one fails with `DuplicateEndpoint` and leaves
the registrations unchanged.  `register_api` has no uniqueness check: the
second registration of the name "osbuild.api" succeeds and the
registration list now holds both endpoints. -/
theorem C5_counterexample :
    apiB.endpoint = apiA.endpoint ∧
    (register_api (register_api b0 apiA) apiB)._apis = [apiA, apiB] := by
  decide

/-- C5 (amended): `register_api` performs no duplicate-name check: even
when the endpoint's name is already registered, the call succeeds and
appends the endpoint to `self._apis` like any other registration. -/
theorem C5_register_no_check (b : BuildRoot) (a : Api)
    (hdup : a.endpoint ∈ b._apis.map Api.endpoint) :
    (register_api b a)._apis = b._apis ++ [a] := by
  rcases h : b._exitstack with _ | s <;> simp [register_api, h]

/-- C5 witness: the duplicate-named `apiB` is appended after `apiA`. -/
theorem C5_register_no_check_witness :
    (register_api (register_api b0 apiA) apiB)._apis =
      (register_api b0 apiA)._apis ++ [apiB] :=
  C5_register_no_check (register_api b0 apiA) apiB (by decide)

/-- C6: after a successful `open()`, the device directory contains exactly
the six character device nodes created by the six `_mknod` calls — with
permission bits 0666, character-device type, and the name/major/minor
tuples full(1,7), null(1,3), random(1,8), urandom(1,9), tty(5,0),
zero(1,5) — and no other entries (the directory is a freshly mounted
tmpfs). -/
theorem C6_device_nodes (w : World) (b st : BuildRoot)
    (h : enter w b = .ok st) :
    st.devContents =
      [⟨"full", 0o666 ||| S_IFCHR, 1, 7⟩, ⟨"null", 0o666 ||| S_IFCHR, 1, 3⟩,
       ⟨"random", 0o666 ||| S_IFCHR, 1, 8⟩, ⟨"urandom", 0o666 ||| S_IFCHR, 1, 9⟩,
       ⟨"tty", 0o666 ||| S_IFCHR, 5, 0⟩, ⟨"zero", 0o666 ||| S_IFCHR, 1, 5⟩] ∧
    st.devContents.length = 6 ∧
    ∀ n ∈ st.devContents,
      S_IMODE n.mode = 0o666 ∧ n.mode &&& S_IFMT = S_IFCHR := by
  obtain ⟨d, v, _, _, hst⟩ := enter_ok_inv w b st h
  subst hst
  have h1 : devNodes.map nodeOf =
      [⟨"full", 0o666 ||| S_IFCHR, 1, 7⟩, ⟨"null", 0o666 ||| S_IFCHR, 1, 3⟩,
       ⟨"random", 0o666 ||| S_IFCHR, 1, 8⟩, ⟨"urandom", 0o666 ||| S_IFCHR, 1, 9⟩,
       ⟨"tty", 0o666 ||| S_IFCHR, 5, 0⟩, ⟨"zero", 0o666 ||| S_IFCHR, 1, 5⟩] := by
    decide
  have h2 : (devNodes.map nodeOf).length = 6 := by decide
  have h3 : ∀ n ∈ devNodes.map nodeOf,
      S_IMODE n.mode = 0o666 ∧ n.mode &&& S_IFMT = S_IFCHR := by decide
  exact ⟨h1, h2, h3⟩

/-- C6 witness: the theorem at the concrete all-success open. -/
theorem C6_device_nodes_witness :
    b0open.devContents =
      [⟨"full", 0o666 ||| S_IFCHR, 1, 7⟩, ⟨"null", 0o666 ||| S_IFCHR, 1, 3⟩,
       ⟨"random", 0o666 ||| S_IFCHR, 1, 8⟩, ⟨"urandom", 0o666 ||| S_IFCHR, 1, 9⟩,
       ⟨"tty", 0o666 ||| S_IFCHR, 5, 0⟩, ⟨"zero", 0o666 ||| S_IFCHR, 1, 5⟩] ∧
    b0open.devContents.length = 6 ∧
    ∀ n ∈ b0open.devContents,
      S_IMODE n.mode = 0o666 ∧ n.mode &&& S_IFMT = S_IFCHR :=
  C6_device_nodes allOkWorld b0 b0open (by decide)

/-- C7: in the import section of `run`'s bind composition, `mount_boot =
false` yields no `/boot` binding whatever the filesystem looks like (the
result is exactly the `/usr` part); and a `usr` (resp. `boot`) entry that
is a symlink is never bound — the result is exactly the other entry's
part, even though `os.path.isdir` may be true for the symlink. -/
theorem C7_import_binds (fs : FS) (b : BuildRoot) :
    (b.mount_boot = false →
      importsMounts fs b =
        if fs.isdir (pathJoin b._rootdir "usr")
            && !(fs.islink (pathJoin b._rootdir "usr")) then
          ["--ro-bind", pathJoin b._rootdir "usr", "/usr"]
        else []) ∧
    (fs.islink (pathJoin b._rootdir "usr") = true →
      importsMounts fs b =
        if b.mount_boot && (fs.isdir (pathJoin b._rootdir "boot")
            && !(fs.islink (pathJoin b._rootdir "boot"))) then
          ["--ro-bind", pathJoin b._rootdir "boot", "/boot"]
        else []) ∧
    (fs.islink (pathJoin b._rootdir "boot") = true →
      importsMounts fs b =
        if fs.isdir (pathJoin b._rootdir "usr")
            && !(fs.islink (pathJoin b._rootdir "usr")) then
          ["--ro-bind", pathJoin b._rootdir "usr", "/usr"]
        else []) := by
  have hu : pathJoin "/" "usr" = "/usr" := by decide
  have hb : pathJoin "/" "boot" = "/boot" := by decide
  refine ⟨?_, ?_, ?_⟩
  · intro h
    simp [importsMounts, h, hu]
  · intro h
    cases hm : b.mount_boot <;> simp [importsMounts, h, hm, hu, hb]
  · intro h
    cases hm : b.mount_boot <;> simp [importsMounts, h, hm, hu, hb]

/-- C7 witness: with `mount_boot = false` over a filesystem where both
`boot` and `usr` exist as real directories only `/usr` is bound, and over
a filesystem where everything is a symlink nothing is bound. -/
theorem C7_import_binds_witness :
    importsMounts fsOk bNoBoot = ["--ro-bind", "/buildroot/usr", "/usr"] ∧
    importsMounts fsLinked b0 = [] := by
  constructor
  · have h := (C7_import_binds fsOk bNoBoot).1 (by decide)
    rw [h]; decide
  · have h := (C7_import_binds fsLinked b0).2.1 (by decide)
    rw [h]; decide

/-- C8: in the bind list composed by `run()`, every caller-supplied
read-write bind comes after the whole fixed system section (imports,
symlinks, /dev, /etc, /run, /tmp, /var, /proc, /sys, mke2fs.conf, the
control library and its fallback), followed by the read-only binds, each
list in caller order and each entry split on ":" into source and
destination; then `/run/osbuild/api` is created and, last, one binding
per registered endpoint maps its socket address to
`/run/osbuild/api/<name>`. -/
theorem C8_bind_order (fs : FS) (b : BuildRoot) (argv binds roBinds : List String)
    (child : Child) (s : List Release) (d v : String) (entries : List String)
    (hopen : b._exitstack = some s)
    (hdev : b.dev = some d) (hvar : b.var = some v)
    (hls : fs.listdir (pathJoin b._libdir "osbuild") = some entries) :
    (run fs b argv child binds roBinds).isOk = true ∧
    ((run fs b argv child binds roBinds).outcomeD default).mounts =
      importsMounts fs b
        ++ ["--symlink", "usr/lib", "/lib", "--symlink", "usr/lib64", "/lib64",
            "--symlink", "usr/bin", "/bin", "--symlink", "usr/sbin", "/sbin",
            "--dev-bind", d, "/dev", "--tmpfs", "/dev/shm", "--dir", "/etc",
            "--tmpfs", "/run", "--tmpfs", "/tmp", "--bind", v, "/var",
            "--proc", "/proc", "--ro-bind", "/sys", "/sys",
            "--ro-bind-try", "/sys/fs/selinux", "/sys/fs/selinux",
            "--ro-bind-try", pathJoin b._rootdir "etc/mke2fs.conf",
            "/etc/mke2fs.conf",
            "--ro-bind", b._libdir, "/run/osbuild/lib"]
        ++ (if entries.isEmpty then
              ["--ro-bind", fs.osbuildModPath, "/run/osbuild/lib/osbuild"]
            else [])
        ++ (binds.map (fun x => "--bind" :: x.splitOn ":")).flatten
        ++ (roBinds.map (fun x => "--ro-bind" :: x.splitOn ":")).flatten
        ++ ["--dir", "/run/osbuild/api"]
        ++ (b._apis.map (fun a =>
              ["--bind", a.socket_address, "/run/osbuild/api/" ++ a.endpoint])).flatten := by
  constructor
  · simp [run, hopen, hdev, hvar, composeMounts, hls, RunResult.isOk]
  · simp [run, hopen, hdev, hvar, composeMounts, hls, RunResult.outcomeD,
      foldl_append_eq]

/-- C8 witness: a concrete run with one read-write bind, one read-only
bind and one registered endpoint. -/
theorem C8_bind_order_witness :
    (run fsOk bW ["stage"] childW ["/host/tree:/tree"] ["/host/cfg:/cfg"]).isOk
      = true ∧
    ((run fsOk bW ["stage"] childW ["/host/tree:/tree"]
        ["/host/cfg:/cfg"]).outcomeD default).mounts =
      importsMounts fsOk bW
        ++ ["--symlink", "usr/lib", "/lib", "--symlink", "usr/lib64", "/lib64",
            "--symlink", "usr/bin", "/bin", "--symlink", "usr/sbin", "/sbin",
            "--dev-bind", "/run/osbuild/osbuild-dev-x7f3k1", "/dev",
            "--tmpfs", "/dev/shm", "--dir", "/etc",
            "--tmpfs", "/run", "--tmpfs", "/tmp",
            "--bind", "/var/lib/osbuild/osbuild-var-x7f3k1", "/var",
            "--proc", "/proc", "--ro-bind", "/sys", "/sys",
            "--ro-bind-try", "/sys/fs/selinux", "/sys/fs/selinux",
            "--ro-bind-try", pathJoin bW._rootdir "etc/mke2fs.conf",
            "/etc/mke2fs.conf",
            "--ro-bind", bW._libdir, "/run/osbuild/lib"]
        ++ (if (["loop.py"] : List String).isEmpty then
              ["--ro-bind", fsOk.osbuildModPath, "/run/osbuild/lib/osbuild"]
            else [])
        ++ ((["/host/tree:/tree"] : List String).map
              (fun x => "--bind" :: x.splitOn ":")).flatten
        ++ ((["/host/cfg:/cfg"] : List String).map
              (fun x => "--ro-bind" :: x.splitOn ":")).flatten
        ++ ["--dir", "/run/osbuild/api"]
        ++ (bW._apis.map (fun a =>
              ["--bind", a.socket_address, "/run/osbuild/api/" ++ a.endpoint])).flatten :=
  C8_bind_order fsOk bW ["stage"] ["/host/tree:/tree"] ["/host/cfg:/cfg"] childW
    (Release.releaseApi "osbuild.api" :: stack0)
    "/run/osbuild/osbuild-dev-x7f3k1" "/var/lib/osbuild/osbuild-var-x7f3k1"
    ["loop.py"] (by decide) (by decide) (by decide) (by decide)

/-- C9: for a child emitting total text `T` — the concatenation of the
successive pipe reads plus the `communicate()` remainder, however the
output is split across reads — a successful `run()` returns a
`CompletedBuild` whose accumulated output is exactly `T`, the monitor's
log calls receive exactly `T` in total, in order, and the result exposes
`T` identically under both the `stdout` and `stderr` views together with
the child's exit status. -/
theorem C9_streaming (fs : FS) (b : BuildRoot) (argv binds roBinds : List String)
    (child : Child) (o : RunOutcome)
    (hok : run fs b argv child binds roBinds = .ok o)
    (hne : ∀ c ∈ child.chunks, c ≠ "") :
    o.build.output = String.join child.chunks ++ child.commBuf ∧
    String.join o.logs = String.join child.chunks ++ child.commBuf ∧
    o.build.stdout = o.build.output ∧
    o.build.stderr = o.build.output ∧
    o.build.returncode = child.returncode := by
  have hs := streamLoop_eq child.chunks hne
  rcases hst : b._exitstack with _ | s
  · simp [run, hst] at hok
  · rcases hcm : composeMounts fs b (b.dev.getD "None") (b.var.getD "None")
        binds roBinds with m | p
    · simp only [run, hst, hcm, hs] at hok
      injection hok with h
      subst h
      refine ⟨rfl, ?_, rfl, rfl, rfl⟩
      rw [join_append_str, join_cons_str]
      have hnil : String.join [] = "" := rfl
      rw [hnil, String.append_empty]
    · simp [run, hst, hcm] at hok

/-- C9 witness: the theorem at a concrete two-chunk child. -/
theorem C9_streaming_witness :
    oW.build.output = String.join childW.chunks ++ childW.commBuf ∧
    String.join oW.logs = String.join childW.chunks ++ childW.commBuf ∧
    oW.build.stdout = oW.build.output ∧
    oW.build.stderr = oW.build.output ∧
    oW.build.returncode = childW.returncode :=
  C9_streaming fsOk b0open [] [] [] childW oW (by decide) (by decide)

/-- C10: `run` decides the control-library fallback through
`os.listdir(libdir/osbuild)`; when that directory does not exist (the
listing raises, modelled by `listdir = none`), `run` raises the error
before spawning any process — it returns no `CompletedBuild` — instead of
treating the missing subtree like an empty one and binding the
host-installed module. -/
theorem C10_missing_module_dir (fs : FS) (b : BuildRoot)
    (argv binds roBinds : List String) (child : Child) (s : List Release)
    (hopen : b._exitstack = some s)
    (hls : fs.listdir (pathJoin b._libdir "osbuild") = none) :
    run fs b argv child binds roBinds =
      .failed (.listdirFailed (pathJoin b._libdir "osbuild")) := by
  simp [run, hopen, composeMounts, hls]

/-- C10 witness: the theorem at a concrete open environment whose libdir
has no `osbuild` subdirectory. -/
theorem C10_missing_module_dir_witness :
    run fsNoModDir b0open [] childW [] [] =
      .failed (.listdirFailed (pathJoin b0open._libdir "osbuild")) :=
  C10_missing_module_dir fsNoModDir b0open [] [] [] childW stack0
    (by decide) (by decide)

end Osbuild
